import Mathlib

/-!
Verification of the error taxonomy of the ai-sdk-rs repository
(crates/ai_error/src/lib.rs): the AiError sum type, its wire-code mapping
error_code, the retryability predicate is_retryable, the advised delay
retry_after, and the thiserror-derived Display rendering.

Machine integers do not occur; durations are modelled as the pair of
seconds and nanoseconds carried by std::time::Duration.
-/

/-- Rust std::time::Duration: a count of seconds plus a sub-second
nanosecond part. Only construction and equality are used by the crate. -/
structure Duration where
  secs : Nat
  nanos : Nat
deriving DecidableEq

/-- Rust Duration::from_secs. -/
def Duration.from_secs (s : Nat) : Duration := ⟨s, 0⟩

/-- Foreign transport fault (reqwest::Error). The crate treats it as an
opaque cause whose Display output is its diagnostic message; we model it
as that carried message. -/
structure ReqwestError where
  message : String
deriving DecidableEq

/-- Display of the foreign transport fault: its diagnostic message. -/
def ReqwestError.display (e : ReqwestError) : String := e.message

/-- Foreign codec fault (serde_json::Error). The crate treats it as an
opaque cause whose Display output is its diagnostic message; we model it
as that carried message. -/
structure SerdeJsonError where
  message : String
deriving DecidableEq

/-- Display of the foreign codec fault: its diagnostic message. -/
def SerdeJsonError.display (e : SerdeJsonError) : String := e.message

/-- The AiError enum of crates/ai_error/src/lib.rs: the closed set of
fourteen failure variants with their payloads. -/
inductive AiError where
  | Auth (message : String)
  | RateLimit (retry_after : Option Duration)
  | Tool (tool_name : String) (message : String)
  | Validation (message : String)
  | Network (cause : ReqwestError)
  | Provider (provider : String) (message : String) (code : Option String)
  | Timeout (d : Duration)
  | Serialization (cause : SerdeJsonError)
  | Internal (message : String)
  | NoSuchTool (tool_name : String)
  | InvalidToolInput (tool_name : String) (reason : String)
  | SchemaValidation (message : String)
  | Stream (message : String)
  | Config (message : String)
deriving DecidableEq

/-- AiError::error_code: the wire code of each variant, transcribed match
arm by match arm from the source. -/
def AiError.error_code : AiError → String
  | .Auth _ => "AUTH_ERROR"
  | .RateLimit _ => "RATE_LIMIT_ERROR"
  | .Tool _ _ => "TOOL_ERROR"
  | .Validation _ => "VALIDATION_ERROR"
  | .Network _ => "NETWORK_ERROR"
  | .Provider _ _ _ => "PROVIDER_ERROR"
  | .Timeout _ => "TIMEOUT_ERROR"
  | .Serialization _ => "SERIALIZATION_ERROR"
  | .Internal _ => "INTERNAL_ERROR"
  | .NoSuchTool _ => "TOOL_ERROR"
  | .InvalidToolInput _ _ => "TOOL_ERROR"
  | .SchemaValidation _ => "VALIDATION_ERROR"
  | .Stream _ => "STREAM_ERROR"
  | .Config _ => "CONFIG_ERROR"

/-- AiError::is_retryable: the matches! macro over RateLimit, Network and
Timeout. -/
def AiError.is_retryable : AiError → Bool
  | .RateLimit _ | .Network _ | .Timeout _ => true
  | _ => false

/-- AiError::retry_after: the advised delay of the source match. -/
def AiError.retry_after : AiError → Option Duration
  | .RateLimit ra => ra
  | .Network _ => some (Duration.from_secs 1)
  | .Timeout _ => some (Duration.from_secs 2)
  | _ => none

/-- The From impl generated by the from attribute on the Network variant:
conversion of a foreign transport fault into an AiError. -/
def AiError.from_reqwest (e : ReqwestError) : AiError := .Network e

/-- The From impl generated by the from attribute on the Serialization
variant: conversion of a foreign codec fault into an AiError. -/
def AiError.from_serde_json (e : SerdeJsonError) : AiError := .Serialization e

/-- The variant tag of an AiError value, forgetting the payload. -/
inductive AiTag where
  | auth | rateLimit | tool | validation | network | provider | timeout
  | serialization | internal | noSuchTool | invalidToolInput
  | schemaValidation | stream | config
deriving DecidableEq

/-- Maps an AiError value to its variant tag. -/
def AiError.tag : AiError → AiTag
  | .Auth _ => .auth
  | .RateLimit _ => .rateLimit
  | .Tool _ _ => .tool
  | .Validation _ => .validation
  | .Network _ => .network
  | .Provider _ _ _ => .provider
  | .Timeout _ => .timeout
  | .Serialization _ => .serialization
  | .Internal _ => .internal
  | .NoSuchTool _ => .noSuchTool
  | .InvalidToolInput _ _ => .invalidToolInput
  | .SchemaValidation _ => .schemaValidation
  | .Stream _ => .stream
  | .Config _ => .config

/-- The single-quote character, written by code point to keep string
literals plain. -/
def squote : String := String.singleton (Char.ofNat 39)

/-- The thiserror-derived Display of AiError, transcribed from the error
attribute of each variant. The Debug rendering of a Duration is foreign
std library code, so it is passed in as a parameter durDebug; every
theorem below holds for an arbitrary rendering. Wrapped foreign faults
are interpolated through their own Display. -/
def AiError.display (durDebug : Duration → String) : AiError → String
  | .Auth m => "Authentication failed: " ++ m
  | .RateLimit ra =>
      "Rate limit exceeded" ++
        (match ra with
          | some d => ", retry after " ++ durDebug d
          | none => "")
  | .Tool tn m => "Tool error in " ++ squote ++ tn ++ squote ++ ": " ++ m
  | .Validation m => "Validation error: " ++ m
  | .Network c => "Network error: " ++ c.display
  | .Provider p m c =>
      "Provider error (" ++ p ++ ")" ++
        (match c with
          | some cd => " [" ++ cd ++ "]"
          | none => "") ++ ": " ++ m
  | .Timeout d => "Request timeout after " ++ durDebug d
  | .Serialization c => "Serialization error: " ++ c.display
  | .Internal m => "Internal error: " ++ m
  | .NoSuchTool n => "No such tool: " ++ n
  | .InvalidToolInput tn r =>
      "Invalid tool input for " ++ squote ++ tn ++ squote ++ ": " ++ r
  | .SchemaValidation m => "Schema validation failed: " ++ m
  | .Stream m => "Stream error: " ++ m
  | .Config m => "Configuration error: " ++ m

/-- The fixed eleven-element wire-code enumeration of the spec. -/
def errorCodes : List String :=
  ["AUTH_ERROR", "RATE_LIMIT_ERROR", "TOOL_ERROR", "VALIDATION_ERROR",
   "NETWORK_ERROR", "PROVIDER_ERROR", "TIMEOUT_ERROR",
   "SERIALIZATION_ERROR", "INTERNAL_ERROR", "STREAM_ERROR", "CONFIG_ERROR"]

lemma ne_of_len {a b : String} (h : a.length ≠ b.length) : a ≠ b :=
  fun he => h (congrArg String.length he)

/-- Retryability as a function of the variant tag alone. -/
def AiTag.retryable : AiTag → Bool
  | .rateLimit | .network | .timeout => true
  | _ => false

/-- The wire code as a function of the variant tag alone. -/
def AiTag.code : AiTag → String
  | .auth => "AUTH_ERROR"
  | .rateLimit => "RATE_LIMIT_ERROR"
  | .tool => "TOOL_ERROR"
  | .validation => "VALIDATION_ERROR"
  | .network => "NETWORK_ERROR"
  | .provider => "PROVIDER_ERROR"
  | .timeout => "TIMEOUT_ERROR"
  | .serialization => "SERIALIZATION_ERROR"
  | .internal => "INTERNAL_ERROR"
  | .noSuchTool => "TOOL_ERROR"
  | .invalidToolInput => "TOOL_ERROR"
  | .schemaValidation => "VALIDATION_ERROR"
  | .stream => "STREAM_ERROR"
  | .config => "CONFIG_ERROR"

lemma is_retryable_eq_tag_retryable (e : AiError) :
    e.is_retryable = e.tag.retryable := by
  cases e <;> rfl

lemma error_code_eq_tag_code (e : AiError) : e.error_code = e.tag.code := by
  cases e <;> rfl

/-- C1: is_retryable returns true exactly when the variant is RateLimit,
Network or Timeout, and false on every value of each of the other eleven
variants. -/
theorem is_retryable_iff_transient (e : AiError) :
    e.is_retryable = true ↔
      (e.tag = AiTag.rateLimit ∨ e.tag = AiTag.network ∨
        e.tag = AiTag.timeout) := by
  cases e <;> simp [AiError.is_retryable, AiError.tag]

/-- C2: error_code maps Tool, NoSuchTool and InvalidToolInput to
TOOL_ERROR, Validation and SchemaValidation to VALIDATION_ERROR, and each
remaining variant to its own code. -/
theorem error_code_mapping :
    (∀ tn m, (AiError.Tool tn m).error_code = "TOOL_ERROR")
    ∧ (∀ n, (AiError.NoSuchTool n).error_code = "TOOL_ERROR")
    ∧ (∀ tn r, (AiError.InvalidToolInput tn r).error_code = "TOOL_ERROR")
    ∧ (∀ m, (AiError.Validation m).error_code = "VALIDATION_ERROR")
    ∧ (∀ m, (AiError.SchemaValidation m).error_code = "VALIDATION_ERROR")
    ∧ (∀ m, (AiError.Auth m).error_code = "AUTH_ERROR")
    ∧ (∀ ra, (AiError.RateLimit ra).error_code = "RATE_LIMIT_ERROR")
    ∧ (∀ c, (AiError.Network c).error_code = "NETWORK_ERROR")
    ∧ (∀ p m c, (AiError.Provider p m c).error_code = "PROVIDER_ERROR")
    ∧ (∀ d, (AiError.Timeout d).error_code = "TIMEOUT_ERROR")
    ∧ (∀ c, (AiError.Serialization c).error_code = "SERIALIZATION_ERROR")
    ∧ (∀ m, (AiError.Internal m).error_code = "INTERNAL_ERROR")
    ∧ (∀ m, (AiError.Stream m).error_code = "STREAM_ERROR")
    ∧ (∀ m, (AiError.Config m).error_code = "CONFIG_ERROR") :=
  ⟨fun _ _ => rfl, fun _ => rfl, fun _ _ => rfl, fun _ => rfl, fun _ => rfl,
    fun _ => rfl, fun _ => rfl, fun _ => rfl, fun _ _ _ => rfl, fun _ => rfl,
    fun _ => rfl, fun _ => rfl, fun _ => rfl, fun _ => rfl⟩

/-- C3: retry_after on RateLimit returns exactly the carried optional
duration (in particular none when the field is absent, while is_retryable
is still true there), and returns none on every value of every variant
outside RateLimit, Network and Timeout. -/
theorem retry_after_rate_limit_echo_and_absent_elsewhere :
    (∀ ra, (AiError.RateLimit ra).retry_after = ra)
    ∧ (AiError.RateLimit none).retry_after = none
    ∧ (AiError.RateLimit none).is_retryable = true
    ∧ (∀ m, (AiError.Auth m).retry_after = none)
    ∧ (∀ tn m, (AiError.Tool tn m).retry_after = none)
    ∧ (∀ m, (AiError.Validation m).retry_after = none)
    ∧ (∀ p m c, (AiError.Provider p m c).retry_after = none)
    ∧ (∀ c, (AiError.Serialization c).retry_after = none)
    ∧ (∀ m, (AiError.Internal m).retry_after = none)
    ∧ (∀ n, (AiError.NoSuchTool n).retry_after = none)
    ∧ (∀ tn r, (AiError.InvalidToolInput tn r).retry_after = none)
    ∧ (∀ m, (AiError.SchemaValidation m).retry_after = none)
    ∧ (∀ m, (AiError.Stream m).retry_after = none)
    ∧ (∀ m, (AiError.Config m).retry_after = none) :=
  ⟨fun _ => rfl, rfl, rfl, fun _ => rfl, fun _ _ => rfl, fun _ => rfl,
    fun _ _ _ => rfl, fun _ => rfl, fun _ => rfl, fun _ => rfl,
    fun _ _ => rfl, fun _ => rfl, fun _ => rfl, fun _ => rfl⟩

/-- C4: retry_after returns a fixed 1 second on every Network value and a
fixed 2 seconds on every Timeout value; in particular Timeout of 3
seconds does not echo its carried duration. -/
theorem retry_after_network_timeout_fixed :
    (∀ c, (AiError.Network c).retry_after = some (Duration.from_secs 1))
    ∧ (∀ d, (AiError.Timeout d).retry_after = some (Duration.from_secs 2))
    ∧ (AiError.Timeout (Duration.from_secs 3)).retry_after =
        some (Duration.from_secs 2)
    ∧ (AiError.Timeout (Duration.from_secs 3)).retry_after ≠
        some (Duration.from_secs 3) :=
  ⟨fun _ => rfl, fun _ => rfl, rfl, by decide⟩

/-- C5: error_code is total on all fourteen variants, always returning a
non-empty string belonging to the fixed eleven-element code enumeration;
as a function of the value it is trivially stable across repeated
calls. -/
theorem error_code_total_nonempty_enumerated (e : AiError) :
    e.error_code ≠ "" ∧ e.error_code ∈ errorCodes := by
  cases e <;> simp [AiError.error_code, errorCodes]

/-- C6: converting a foreign transport fault into Network, or a foreign
codec fault into Serialization, and rendering the Display form yields a
string containing the foreign diagnostic message unaltered, for any
rendering of durations. -/
theorem foreign_message_preserved_in_display :
    (∀ (f : Duration → String) (r : ReqwestError), ∃ p q,
        (AiError.from_reqwest r).display f = p ++ r.message ++ q)
    ∧ (∀ (f : Duration → String) (s : SerdeJsonError), ∃ p q,
        (AiError.from_serde_json s).display f = p ++ s.message ++ q) := by
  constructor
  · intro f r
    refine ⟨"Network error: ", "", ?_⟩
    simp [AiError.display, AiError.from_reqwest, ReqwestError.display]
  · intro f s
    refine ⟨"Serialization error: ", "", ?_⟩
    simp [AiError.display, AiError.from_serde_json, SerdeJsonError.display]

/-- C7: is_retryable is a function of the variant tag only: two values
with the same tag, whatever their payloads, get the same boolean. -/
theorem is_retryable_depends_only_on_tag (a b : AiError)
    (h : a.tag = b.tag) : a.is_retryable = b.is_retryable := by
  rw [is_retryable_eq_tag_retryable, is_retryable_eq_tag_retryable, h]

/-- Witness for C7 at two RateLimit values with different payloads. -/
theorem is_retryable_depends_only_on_tag_witness :
    (AiError.RateLimit none).is_retryable
      = (AiError.RateLimit (some (Duration.from_secs 5))).is_retryable :=
  is_retryable_depends_only_on_tag _ _ rfl

/-- C9: whenever retry_after returns a duration, is_retryable is true. -/
theorem retryable_of_retry_after_some (e : AiError) (d : Duration)
    (h : e.retry_after = some d) : e.is_retryable = true := by
  cases e <;> simp_all [AiError.retry_after, AiError.is_retryable]

/-- Witness for C9 at a concrete Network value. -/
theorem retryable_of_retry_after_some_witness :
    (AiError.Network ⟨"connection reset"⟩).is_retryable = true :=
  retryable_of_retry_after_some _ (Duration.from_secs 1) rfl

/-- C10: error_code is a function of the variant tag only: two values
with the same tag, whatever their payloads, get the same code string. -/
theorem error_code_depends_only_on_tag (a b : AiError)
    (h : a.tag = b.tag) : a.error_code = b.error_code := by
  rw [error_code_eq_tag_code, error_code_eq_tag_code, h]

/-- Witness for C10 at two Tool values with different payloads. -/
theorem error_code_depends_only_on_tag_witness :
    (AiError.Tool "alpha" "boom").error_code
      = (AiError.Tool "beta" "crash").error_code :=
  error_code_depends_only_on_tag _ _ rfl

/-- Length of the quote string used by the Tool renderings. -/
@[simp] lemma squote_length : squote.length = 1 := by decide

@[simp] lemma len_auth_head : ("Authentication failed: " : String).length = 23 := by decide

@[simp] lemma len_auth_code : ("AUTH_ERROR" : String).length = 10 := by decide

@[simp] lemma len_rate_head : ("Rate limit exceeded" : String).length = 19 := by decide

@[simp] lemma len_rate_mid : (", retry after " : String).length = 14 := by decide

@[simp] lemma len_rate_code : ("RATE_LIMIT_ERROR" : String).length = 16 := by decide

@[simp] lemma len_tool_head : ("Tool error in " : String).length = 14 := by decide

@[simp] lemma len_colon_sp : (": " : String).length = 2 := by decide

@[simp] lemma len_tool_code : ("TOOL_ERROR" : String).length = 10 := by decide

@[simp] lemma len_valid_head : ("Validation error: " : String).length = 18 := by decide

@[simp] lemma len_valid_code : ("VALIDATION_ERROR" : String).length = 16 := by decide

@[simp] lemma len_net_head : ("Network error: " : String).length = 15 := by decide

@[simp] lemma len_net_code : ("NETWORK_ERROR" : String).length = 13 := by decide

@[simp] lemma len_prov_head : ("Provider error (" : String).length = 16 := by decide

@[simp] lemma len_close_paren : (")" : String).length = 1 := by decide

@[simp] lemma len_open_brk : (" [" : String).length = 2 := by decide

@[simp] lemma len_close_brk : ("]" : String).length = 1 := by decide

@[simp] lemma len_prov_code : ("PROVIDER_ERROR" : String).length = 14 := by decide

@[simp] lemma len_timeout_head : ("Request timeout after " : String).length = 22 := by decide

@[simp] lemma len_timeout_code : ("TIMEOUT_ERROR" : String).length = 13 := by decide

@[simp] lemma len_ser_head : ("Serialization error: " : String).length = 21 := by decide

@[simp] lemma len_ser_code : ("SERIALIZATION_ERROR" : String).length = 19 := by decide

@[simp] lemma len_int_head : ("Internal error: " : String).length = 16 := by decide

@[simp] lemma len_int_code : ("INTERNAL_ERROR" : String).length = 14 := by decide

@[simp] lemma len_nosuch_head : ("No such tool: " : String).length = 14 := by decide

@[simp] lemma len_invalid_head : ("Invalid tool input for " : String).length = 23 := by decide

@[simp] lemma len_schema_head : ("Schema validation failed: " : String).length = 26 := by decide

@[simp] lemma len_stream_head : ("Stream error: " : String).length = 14 := by decide

@[simp] lemma len_stream_code : ("STREAM_ERROR" : String).length = 12 := by decide

@[simp] lemma len_config_head : ("Configuration error: " : String).length = 21 := by decide

@[simp] lemma len_config_code : ("CONFIG_ERROR" : String).length = 12 := by decide

/-- C8: for every value, of any variant and payload, and any rendering of
durations, the human-readable Display form differs as a string from the
wire code: each Display form is strictly longer than its code. -/
theorem display_ne_error_code (f : Duration → String) (e : AiError) :
    e.display f ≠ e.error_code := by
  apply ne_of_len
  cases e
  case RateLimit ra =>
    cases ra <;> simp [AiError.display, AiError.error_code, String.length_append] <;> omega
  case Provider p m c =>
    cases c <;> simp [AiError.display, AiError.error_code, String.length_append] <;> omega
  all_goals simp [AiError.display, AiError.error_code, String.length_append] <;> omega
